import Mathlib

/-!
Verification of the Ultravox client session SDK (TypeScript) against its
natural-language specification.

This file shallowly embeds the session controller's pure logic:

* the transcript reconcilers (the non-ordinal append/replace-tail variant of
  `src/index.ts` and the ordinal-keyed variant of the later revision),
* the status state machine (`setStatus`) and the teardown routine
  (`disconnect` / `leaveCall`),
* the outbound-send gating (`sendText` / `setOutputMedium`) and the
  size-based routing of `sendData`,
* the client-tool invocation dispatcher
  (`invokeClientTool` / `handleClientToolResult` / `handleClientToolFailure`),
* the inbound data-message classifier of `handleDataReceived`,
* the four mute operations.

Embedding conventions:

* Transcript sequences for the non-ordinal reconciler are kept
  most-recent-first, so pushing onto the end of the TypeScript array becomes
  `cons` and replacing the last array element becomes replacing the head.
* JavaScript truthiness is modelled explicitly where the source relies on it:
  an object reference (such as the always-present `experimentalMessages` Set)
  is always truthy, and an empty string is falsy (`jsOrStr`).
* A thrown JavaScript exception is modelled by an explicit error component of
  the result; a total Lean function models a TypeScript method that cannot
  throw.
* Promise settlement is modelled by the `ToolOutcome` inductive: a client tool
  either returns synchronously, throws synchronously, resolves, or rejects,
  and the dispatcher's `try`/`catch`/`then`/`catch` structure maps each case
  to its handler.
-/

namespace Ultravox

/-- The current status of an UltravoxSession, as in the `UltravoxSessionStatus`
enum of the source. -/
inductive UltravoxSessionStatus where
  | disconnected
  | disconnecting
  | connecting
  | idle
  | listening
  | thinking
  | speaking
deriving DecidableEq

/-- The participant responsible for an utterance (`Role` enum). -/
inductive Role where
  | user
  | agent
deriving DecidableEq

/-- How a message was communicated (`Medium` enum). -/
inductive Medium where
  | voice
  | text
deriving DecidableEq

/-- A transcription of a single utterance (`Transcript` class). -/
structure Transcript where
  text : String
  isFinal : Bool
  speaker : Role
  medium : Medium
deriving DecidableEq

/-- The string value of each `UltravoxSessionStatus` enum member. -/
def statusString : UltravoxSessionStatus → String
  | .disconnected => "disconnected"
  | .disconnecting => "disconnecting"
  | .connecting => "connecting"
  | .idle => "idle"
  | .listening => "listening"
  | .thinking => "thinking"
  | .speaking => "speaking"

/-! ### Non-ordinal transcript reconciler (src/index.ts)

The transcript list is kept most-recent-first: `Array.prototype.push` becomes
`cons`, and writing to index `length - 1` becomes replacing the head. -/

/-- The non-ordinal `addOrUpdateTranscript`: if the most recent entry exists,
is not final, and has the same speaker as the incoming transcript, replace it
in place; otherwise push the incoming transcript as a new entry. -/
def addOrUpdateTranscript (ts : List Transcript) (t : Transcript) : List Transcript :=
  match ts with
  | lastTranscript :: rest =>
    if lastTranscript.isFinal = false ∧ t.speaker = lastTranscript.speaker then
      t :: rest
    else
      t :: lastTranscript :: rest
  | [] => [t]

/-- An inbound `voice_synced_transcript` or `agent_text_transcript` data
message: `agentText` is true for type `agent_text_transcript` (medium TEXT)
and false for `voice_synced_transcript` (medium VOICE). -/
structure AgentTranscriptMsg where
  agentText : Bool
  text : Option String
  delta : Option String
  final : Bool
deriving DecidableEq

/-- The agent-transcript branch of the non-ordinal `handleDataReceived`:
a message with non-null `text` builds a full transcript and reconciles it;
a message with only a non-null `delta` extends the most recent transcript,
provided it exists and its speaker is the agent, by reconciling a transcript
whose text is the previous text plus the delta; otherwise the message is
dropped. -/
def handleAgentTranscriptMsg (ts : List Transcript) (msg : AgentTranscriptMsg) :
    List Transcript :=
  let medium := if msg.agentText then Medium.text else Medium.voice
  match msg.text with
  | some txt => addOrUpdateTranscript ts (Transcript.mk txt msg.final Role.agent medium)
  | none =>
    match msg.delta with
    | some d =>
      match ts with
      | lastTranscript :: _ =>
        if lastTranscript.speaker = Role.agent then
          addOrUpdateTranscript ts
            (Transcript.mk (lastTranscript.text ++ d) msg.final Role.agent medium)
        else ts
      | [] => ts
    | none => ts

/-- Processes a sequence of inbound agent transcript messages in arrival
order. -/
def handleAgentMessages (ts : List Transcript) (msgs : List AgentTranscriptMsg) :
    List Transcript :=
  msgs.foldl handleAgentTranscriptMsg ts

/-- Builds a delta-only `voice_synced_transcript` message. -/
def deltaMessage (d : String) (final : Bool) : AgentTranscriptMsg :=
  { agentText := false, text := none, delta := some d, final := final }

/-! ### Ordinal transcript reconciler (later revision)

This variant keys entries by a server-assigned ordinal over an array that may
contain null placeholder slots; here the array is in natural order. -/

/-- JavaScript `a || b` for an optional string `a`: an absent or empty string
is falsy and falls through to `b`. -/
def jsOrStr (a : Option String) (b : String) : String :=
  match a with
  | some s => if s = "" then b else s
  | none => b

/-- The ordinal-keyed `addOrUpdateTranscript`: pad with null slots up to the
ordinal, then either push a new entry (when the ordinal is just past the end)
or overwrite the entry at the ordinal, preserving its prior text when only a
delta is supplied. -/
def ordinalAddOrUpdateTranscript (ts : List (Option Transcript)) (ordinal : Nat)
    (medium : Medium) (speaker : Role) (isFinal : Bool)
    (text : Option String) (delta : Option String) : List (Option Transcript) :=
  let padded := ts ++ List.replicate (ordinal - ts.length) none
  if padded.length = ordinal then
    padded ++ [some (Transcript.mk (jsOrStr text (jsOrStr delta "")) isFinal speaker medium)]
  else
    let priorText :=
      match padded.get? ordinal with
      | some (some tr) => tr.text
      | _ => ""
    padded.set ordinal
      (some (Transcript.mk (jsOrStr text (priorText ++ jsOrStr delta "")) isFinal speaker medium))

/-! ### Session state, status machine, and lifecycle -/

/-- The observable parts of the transport room used by the mute guards:
JavaScript truthiness of `room.localParticipant` and
`room.remoteParticipants`. -/
structure RoomModel where
  localParticipant : Bool
  remoteParticipants : Bool
deriving DecidableEq

/-- The mutable state of an `UltravoxSession` relevant to the claims.
`statusEvents` records, in order, the new status carried by each dispatched
`UltravoxSessionStatusChangedEvent`. -/
structure Session where
  status : UltravoxSessionStatus
  statusEvents : List UltravoxSessionStatus
  transcripts : List Transcript
  room : Option RoomModel
  socket : Bool
  localAudioTrack : Bool
  micSourceNode : Bool
  agentSourceNode : Bool
  delayedSpeakingState : Bool
  experimentalMessages : List String
  isMicMuted : Bool
  isSpeakerMuted : Bool
deriving DecidableEq

/-- The freshly constructed session: status `disconnected`, no resources, no
experimental messages enabled, both mute flags false. -/
def initialSession : Session :=
  { status := .disconnected
    statusEvents := []
    transcripts := []
    room := none
    socket := false
    localAudioTrack := false
    micSourceNode := false
    agentSourceNode := false
    delayedSpeakingState := false
    experimentalMessages := []
    isMicMuted := false
    isSpeakerMuted := false }

/-- The `setStatus` method: a no-op when the status is unchanged, otherwise
replaces the status and dispatches exactly one status-changed event. -/
def setStatus (s : Session) (status : UltravoxSessionStatus) : Session :=
  if s.status = status then s
  else { s with status := status, statusEvents := s.statusEvents ++ [status] }

/-- The private `disconnect` teardown routine: transition to `disconnecting`,
release the local audio track, room, socket, and source nodes, then settle at
`disconnected`. -/
def disconnect (s : Session) : Session :=
  let s1 := setStatus s .disconnecting
  let s2 :=
    { s1 with
      localAudioTrack := false
      room := none
      socket := false
      micSourceNode := false
      agentSourceNode := false }
  setStatus s2 .disconnected

/-- The public `leaveCall` method, which funnels into `disconnect`. -/
def leaveCall (s : Session) : Session := disconnect s

/-- Counts how many dispatched status events settled the status at
`disconnected`. -/
def settledAtDisconnected (events : List UltravoxSessionStatus) : Nat :=
  events.countP fun v => v = UltravoxSessionStatus.disconnected

/-- Modelled from the spec: the number of status-changed notifications the
spec requires for a sequence of `setStatus` calls starting from status `cur`,
namely one per value distinct from its predecessor and none for a repeated
value. -/
def specStatusChangeCount (cur : UltravoxSessionStatus) :
    List UltravoxSessionStatus → Nat
  | [] => 0
  | v :: rest => if v = cur then specStatusChangeCount cur rest
                 else specStatusChangeCount v rest + 1

/-! ### Outbound send gating and size-based routing -/

/-- The `CONNECTED_STATUSES` set gating outbound sends. -/
def CONNECTED_STATUSES : List UltravoxSessionStatus :=
  [.listening, .thinking, .speaking]

/-- An outbound data message built by `sendText` or `setOutputMedium`. -/
inductive DataMessage where
  | inputTextMessage (text : String) (deferResponse : Option Bool)
  | setOutputMediumMsg (medium : Medium)
deriving DecidableEq

/-- The `sendText` method: throws when the status is not a connected status,
otherwise hands an `input_text_message` to `sendData`, leaving the session
state untouched. -/
def sendText (s : Session) (text : String) (deferResponse : Option Bool) :
    Except String (Session × DataMessage) :=
  if ¬ (s.status ∈ CONNECTED_STATUSES) then
    .error ("Cannot send text while not connected. Current status is "
      ++ statusString s.status ++ ".")
  else
    .ok (s, .inputTextMessage text deferResponse)

/-- The `setOutputMedium` method: throws when the status is not a connected
status, otherwise hands a `set_output_medium` message to `sendData`, leaving
the session state untouched. -/
def setOutputMedium (s : Session) (medium : Medium) :
    Except String (Session × DataMessage) :=
  if ¬ (s.status ∈ CONNECTED_STATUSES) then
    .error ("Cannot set output medium while not connected. Current status is "
      ++ statusString s.status ++ ".")
  else
    .ok (s, .setOutputMediumMsg medium)

/-! ### Mute operations -/

/-- JavaScript truthiness of an optionally-chained boolean field access:
`undefined` is falsy. -/
def jsTruthyOpt (o : Option Bool) : Bool := o.getD false

/-- The `muteMic` method: throws (leaving the session untouched) when
`room?.localParticipant` is falsy, otherwise sets the mic-muted flag. The
first component models a thrown error message. -/
def muteMic (s : Session) : Option String × Session :=
  if ¬ jsTruthyOpt (s.room.map fun r => r.localParticipant) then
    (some "Cannot muteMic.", s)
  else
    (none, { s with isMicMuted := true })

/-- The `unmuteMic` method: throws when `room?.localParticipant` is falsy,
otherwise clears the mic-muted flag. -/
def unmuteMic (s : Session) : Option String × Session :=
  if ¬ jsTruthyOpt (s.room.map fun r => r.localParticipant) then
    (some "Cannot unmuteMic.", s)
  else
    (none, { s with isMicMuted := false })

/-- The `muteSpeaker` method: throws when `room?.remoteParticipants` is falsy,
otherwise sets the speaker-muted flag. -/
def muteSpeaker (s : Session) : Option String × Session :=
  if ¬ jsTruthyOpt (s.room.map fun r => r.remoteParticipants) then
    (some "Cannot muteSpeaker.", s)
  else
    (none, { s with isSpeakerMuted := true })

/-- The `unmuteSpeaker` method: throws when `room?.remoteParticipants` is
falsy, otherwise clears the speaker-muted flag. -/
def unmuteSpeaker (s : Session) : Option String × Session :=
  if ¬ jsTruthyOpt (s.room.map fun r => r.remoteParticipants) then
    (some "Cannot unmuteSpeaker.", s)
  else
    (none, { s with isSpeakerMuted := false })

/-! ### Client tool invocation dispatcher (latest revision) -/

/-- A runtime JavaScript value as far as the dispatcher's `typeof` checks
observe it. -/
inductive JsValue where
  | undef
  | nullv
  | boolean (b : Bool)
  | num (n : Int)
  | str (s : String)
deriving DecidableEq

/-- JavaScript `typeof v === "string"`. -/
def JsValue.isString : JsValue → Bool
  | .str _ => true
  | _ => false

/-- The structured variant of `ClientToolReturnType`: an object whose declared
fields are `result`, `responseType`, and the optional `agentReaction` and
`updateCallState`. The `result` and `responseType` fields hold runtime values
that may violate the declared string type, which is what the dispatcher's
`typeof` validation checks. -/
structure StructuredToolResult where
  result : JsValue
  responseType : JsValue
  agentReaction : Option JsValue
  updateCallState : Option JsValue
deriving DecidableEq

/-- A settled `ClientToolReturnType` value: a plain string or a structured
object. -/
inductive ClientToolReturnValue where
  | plain (s : String)
  | structured (r : StructuredToolResult)
deriving DecidableEq

/-- A thrown or rejected JavaScript value: either an `Error` instance with a
message, or any other value (whose message is not derivable). -/
inductive JsThrown where
  | errorObj (message : String)
  | nonError (v : JsValue)
deriving DecidableEq

/-- An outbound `client_tool_result` message as handed to `sendData`; absent
optional fields are `none`. -/
structure ClientToolResultMessage where
  type : String
  invocationId : String
  result : Option JsValue := none
  responseType : Option JsValue := none
  errorType : Option String := none
  errorMessage : Option String := none
  agentReaction : Option JsValue := none
  updateCallState : Option JsValue := none
deriving DecidableEq

/-- The `handleClientToolResult` method: a plain string result is sent as
`{ result }`; a structured result whose `result` or `responseType` is not a
string is converted to an implementation-error message; otherwise the
structured fields are forwarded verbatim alongside the invocation id. -/
def handleClientToolResult (invocationId : String) (result : ClientToolReturnValue) :
    ClientToolResultMessage :=
  match result with
  | .plain s =>
    { type := "client_tool_result", invocationId := invocationId, result := some (.str s) }
  | .structured r =>
    if !r.result.isString || !r.responseType.isString then
      { type := "client_tool_result"
        invocationId := invocationId
        errorType := some "implementation-error"
        errorMessage := some "Client tool result must be a string or an object with string \"result\" and \"responseType\" properties." }
    else
      { type := "client_tool_result"
        invocationId := invocationId
        result := some r.result
        responseType := some r.responseType
        agentReaction := r.agentReaction
        updateCallState := r.updateCallState }

/-- The `handleClientToolFailure` method: reports an implementation-error with
the failure's message when the thrown value is an `Error`, else with the
message omitted. -/
def handleClientToolFailure (invocationId : String) (error : JsThrown) :
    ClientToolResultMessage :=
  { type := "client_tool_result"
    invocationId := invocationId
    errorType := some "implementation-error"
    errorMessage := match error with | .errorObj m => some m | .nonError _ => none }

/-- How the invocation of a registered client tool settles: it returns
synchronously, throws synchronously, returns a promise that resolves, or
returns a promise that rejects. -/
inductive ToolOutcome where
  | syncReturn (v : ClientToolReturnValue)
  | syncThrow (e : JsThrown)
  | asyncResolve (v : ClientToolReturnValue)
  | asyncReject (e : JsThrown)
deriving DecidableEq

/-- The `invokeClientTool` method, returning the list of `client_tool_result`
messages sent. An unregistered tool name yields a single errorType
"undefined" message. A registered tool's synchronous return and promise
resolution both flow to `handleClientToolResult`; its synchronous throw
(caught by the try/catch) and promise rejection (caught by the catch handler)
both flow to `handleClientToolFailure`. Totality of this function models that
no exception escapes to the caller. -/
def invokeClientTool (registeredTools : String → Option ToolOutcome)
    (toolName invocationId : String) : List ClientToolResultMessage :=
  match registeredTools toolName with
  | none =>
    [{ type := "client_tool_result"
       invocationId := invocationId
       errorType := some "undefined"
       errorMessage := some ("Client tool " ++ toolName ++ " is not registered (TypeScript client)") }]
  | some (.syncReturn v) => [handleClientToolResult invocationId v]
  | some (.syncThrow e) => [handleClientToolFailure invocationId e]
  | some (.asyncResolve v) => [handleClientToolResult invocationId v]
  | some (.asyncReject e) => [handleClientToolFailure invocationId e]

/-! ### Size-routed sendData (latest revision) -/

/-- A primitive JSON value appearing as a field of an object handed to
`sendData`. -/
inductive JsonPrim where
  | str (s : String)
  | num (n : Int)
  | boolean (b : Bool)
deriving DecidableEq

/-- JSON string escaping for one character, covering the quote and backslash
escapes (the fragment used by the protocol messages contains no control
characters). -/
def jsonEscapeChar (c : Char) : String :=
  if c = '"' then "\\\"" else if c = '\\' then "\\\\" else String.singleton c

/-- Concatenation of the escapes of each character in order. -/
def jsonEscapeList : List Char → String
  | [] => ""
  | c :: cs => jsonEscapeChar c ++ jsonEscapeList cs

/-- JSON encoding of a string, as produced by `JSON.stringify`. -/
def jsonEncodeString (s : String) : String :=
  "\"" ++ jsonEscapeList s.data ++ "\""

/-- JSON encoding of a primitive field value. -/
def jsonEncodePrim : JsonPrim → String
  | .str s => jsonEncodeString s
  | .num n => toString n
  | .boolean b => if b then "true" else "false"

/-- JSON encoding of an object's comma-separated field list. -/
def jsonEncodeFields : List (String × JsonPrim) → String
  | [] => ""
  | [(k, v)] => jsonEncodeString k ++ ":" ++ jsonEncodePrim v
  | (k, v) :: rest =>
    jsonEncodeString k ++ ":" ++ jsonEncodePrim v ++ "," ++ jsonEncodeFields rest

/-- JSON encoding of a flat object, i.e. `JSON.stringify` of the objects the
session hands to `sendData`. -/
def jsonEncodeObj (fields : List (String × JsonPrim)) : String :=
  "\x7b" ++ jsonEncodeFields fields ++ "\x7d"

/-- Which transport an outbound data message is sent over. -/
inductive SendChannel where
  | dataChannel
  | socketChannel
deriving DecidableEq

/-- First-match lookup of a field in a flat JSON object. -/
def lookupField (fields : List (String × JsonPrim)) (key : String) : Option JsonPrim :=
  match fields with
  | [] => none
  | (k, v) :: rest => if k = key then some v else lookupField rest key

/-- The `sendData` method of the latest revision: objects without a `type`
field throw; otherwise the UTF-8 encoding of the JSON serialization is
measured, and messages over 1024 bytes go to the signaling socket while all
others are published on the reliable data channel. -/
def sendData (obj : List (String × JsonPrim)) : Except String SendChannel :=
  if (lookupField obj "type").isNone then
    .error "Data must have a type field"
  else
    let msgStr := jsonEncodeObj obj
    if msgStr.utf8ByteSize > 1024 then .ok .socketChannel
    else .ok .dataChannel

/-- A concrete `sendData` argument whose JSON serialization is exactly 1024
bytes: a `type` field and a 1002-character text payload. -/
def msg1024 : List (String × JsonPrim) :=
  [("type", .str "x"), ("text", .str (String.mk (List.replicate 1002 'a')))]

/-! ### Inbound data-message classification (latest revision) -/

/-- What `handleDataReceived` does with an inbound message of a given type. -/
inductive DataMsgAction where
  | stateMsg
  | transcriptMsg
  | clientToolInvocation
  | experimentalEvent
  | ignored
deriving DecidableEq

/-- JavaScript truthiness of the session's `experimentalMessages` field. The
field is assigned `experimentalMessages || new Set()` in the constructor, so
it always holds a Set object, and an object reference is truthy regardless of
the set's contents. -/
def jsObjectTruthy (_s : List String) : Bool := true

/-- The type-discriminator cascade of `handleDataReceived` in the latest
revision: `state`, `transcript`, and `client_tool_invocation` are recognized;
any other type is dispatched as an experimental message when
`this.experimentalMessages` is truthy, and ignored otherwise. -/
def classifyDataMessage (experimentalMessages : List String) (msgType : String) :
    DataMsgAction :=
  if msgType = "state" then .stateMsg
  else if msgType = "transcript" then .transcriptMsg
  else if msgType = "client_tool_invocation" then .clientToolInvocation
  else if jsObjectTruthy experimentalMessages then .experimentalEvent
  else .ignored

/-! ## Theorems -/

/-- Helper: processing a sequence of non-final delta messages from a state
whose most recent entry is a non-final agent entry extends that entry in
place, accumulating the delta lengths. -/
theorem handleAgentMessages_nonfinal_deltas (ds : List String) :
    ∀ (t0 : Transcript) (rest : List Transcript),
      t0.speaker = Role.agent → t0.isFinal = false →
      ∃ tcur : Transcript,
        handleAgentMessages (t0 :: rest) (ds.map fun d => deltaMessage d false)
          = tcur :: rest ∧
        tcur.text.length = t0.text.length + (ds.map String.length).sum ∧
        tcur.isFinal = false ∧ tcur.speaker = Role.agent := by
  induction ds with
  | nil =>
    intro t0 rest hs hf
    exact ⟨t0, rfl, by simp, hf, hs⟩
  | cons d ds ih =>
    intro t0 rest hs hf
    have hstep : handleAgentTranscriptMsg (t0 :: rest) (deltaMessage d false)
        = Transcript.mk (t0.text ++ d) false Role.agent Medium.voice :: rest := by
      simp [handleAgentTranscriptMsg, deltaMessage, addOrUpdateTranscript, hs, hf]
    obtain ⟨tcur, hrun, hlen, hfin, hsp⟩ :=
      ih (Transcript.mk (t0.text ++ d) false Role.agent Medium.voice) rest rfl rfl
    refine ⟨tcur, ?_, ?_, hfin, hsp⟩
    · simpa [handleAgentMessages, hstep] using hrun
    · simp only [hlen]
      simp [String.length_append]
      omega

/-- C1: in the non-ordinal reconciler, a delta message arriving when the most
recent entry is final and agent-spoken starts a new entry; a delta arriving
when the most recent entry is non-final and agent-spoken extends that entry in
place with text equal to the previous text plus the delta; and after a run of
non-final deltas followed by a closing delta applied to a freshly started
non-final agent entry, the extended entry's text length equals the initial
text length plus the sum of the lengths of all applied deltas. -/
theorem C1_delta_reconciliation :
    (∀ (lastT : Transcript) (rest : List Transcript) (d : String) (fl agentText : Bool),
      lastT.isFinal = true → lastT.speaker = Role.agent →
      handleAgentTranscriptMsg (lastT :: rest)
          { agentText := agentText, text := none, delta := some d, final := fl }
        = Transcript.mk (lastT.text ++ d) fl Role.agent
            (if agentText then Medium.text else Medium.voice) :: lastT :: rest) ∧
    (∀ (lastT : Transcript) (rest : List Transcript) (d : String) (fl agentText : Bool),
      lastT.isFinal = false → lastT.speaker = Role.agent →
      handleAgentTranscriptMsg (lastT :: rest)
          { agentText := agentText, text := none, delta := some d, final := fl }
        = Transcript.mk (lastT.text ++ d) fl Role.agent
            (if agentText then Medium.text else Medium.voice) :: rest) ∧
    (∀ (t0 : Transcript) (rest : List Transcript) (ds : List String) (dlast : String)
        (fl : Bool),
      t0.speaker = Role.agent → t0.isFinal = false →
      ∃ tfin : Transcript,
        handleAgentMessages (t0 :: rest)
            ((ds.map fun d => deltaMessage d false) ++ [deltaMessage dlast fl])
          = tfin :: rest ∧
        tfin.text.length
          = t0.text.length + (ds.map String.length).sum + dlast.length ∧
        tfin.isFinal = fl ∧ tfin.speaker = Role.agent) := by
  refine ⟨?_, ?_, ?_⟩
  · intro lastT rest d fl agentText hf hs
    simp [handleAgentTranscriptMsg, addOrUpdateTranscript, hs, hf]
  · intro lastT rest d fl agentText hf hs
    simp [handleAgentTranscriptMsg, addOrUpdateTranscript, hs, hf]
  · intro t0 rest ds dlast fl hs hf
    obtain ⟨tcur, hrun, hlen, hfin, hsp⟩ :=
      handleAgentMessages_nonfinal_deltas ds t0 rest hs hf
    have hstep : handleAgentTranscriptMsg (tcur :: rest) (deltaMessage dlast fl)
        = Transcript.mk (tcur.text ++ dlast) fl Role.agent Medium.voice :: rest := by
      simp [handleAgentTranscriptMsg, deltaMessage, addOrUpdateTranscript, hsp, hfin]
    refine ⟨Transcript.mk (tcur.text ++ dlast) fl Role.agent Medium.voice, ?_, ?_, rfl, rfl⟩
    · rw [handleAgentMessages, List.foldl_append]
      have : (ds.map fun d => deltaMessage d false).foldl handleAgentTranscriptMsg (t0 :: rest)
          = tcur :: rest := hrun
      rw [this]
      simpa using hstep
    · simp only [String.length_append, hlen]

/-- C1 witness: the spec scenario text "Hel", delta "lo", closing delta
" there" yields one extended entry of text length 11 that is final. -/
theorem C1_delta_reconciliation_witness :
    ∃ tfin : Transcript,
      handleAgentMessages [Transcript.mk "Hel" false Role.agent Medium.voice]
          ((["lo"].map fun d => deltaMessage d false) ++ [deltaMessage " there" true])
        = [tfin] ∧
      tfin.text.length = 11 ∧ tfin.isFinal = true ∧ tfin.speaker = Role.agent := by
  obtain ⟨tfin, h1, h2, h3, h4⟩ :=
    C1_delta_reconciliation.2.2 (Transcript.mk "Hel" false Role.agent Medium.voice)
      [] ["lo"] " there" true rfl rfl
  exact ⟨tfin, h1, by simpa using h2, h3, h4⟩

/-- C2 counterexample: in the ordinal-keyed reconciler of the later revision,
a final user entry at ordinal 0 is overwritten in place by a later message at
the same ordinal, even one from a different speaker, so a final entry is not
immutable and an in-place replacement is not restricted to the same
speaker. -/
theorem C2_ordinal_counterexample :
    ordinalAddOrUpdateTranscript [] 0 Medium.voice Role.user true (some "a") none
      = [some (Transcript.mk "a" true Role.user Medium.voice)] ∧
    ordinalAddOrUpdateTranscript
        (ordinalAddOrUpdateTranscript [] 0 Medium.voice Role.user true (some "a") none)
        0 Medium.voice Role.agent false (some "b") none
      = [some (Transcript.mk "b" false Role.agent Medium.voice)] := by
  decide

/-- C2 amended: in the non-ordinal reconciler the invariant holds: an incoming
transcript arriving when the most recent entry is final starts a new entry and
leaves every existing entry unchanged; an in-place replacement of the most
recent entry happens only when it is non-final and the incoming entry has the
same speaker; and every reconciliation step either prepends a new entry,
preserving all existing entries, or replaces only a non-final same-speaker
most recent entry. -/
theorem C2_amended_nonordinal (ts : List Transcript) (t : Transcript) :
    (∀ (lastT : Transcript) (rest : List Transcript),
      ts = lastT :: rest → lastT.isFinal = true →
      addOrUpdateTranscript ts t = t :: lastT :: rest) ∧
    (∀ (lastT : Transcript) (rest : List Transcript),
      ts = lastT :: rest → addOrUpdateTranscript ts t = t :: rest →
      lastT.isFinal = false ∧ t.speaker = lastT.speaker) ∧
    (addOrUpdateTranscript ts t = t :: ts ∨
      ∃ (lastT : Transcript) (rest : List Transcript),
        ts = lastT :: rest ∧ lastT.isFinal = false ∧ t.speaker = lastT.speaker ∧
        addOrUpdateTranscript ts t = t :: rest) := by
  refine ⟨?_, ?_, ?_⟩
  · rintro lastT rest rfl hf
    simp [addOrUpdateTranscript, hf]
  · rintro lastT rest rfl heq
    by_cases hc : lastT.isFinal = false ∧ t.speaker = lastT.speaker
    · exact hc
    · rw [addOrUpdateTranscript, if_neg hc] at heq
      have : lastT :: rest = rest := by
        injection heq
      exact absurd this (List.cons_ne_self lastT rest)
  · match ts with
    | [] => exact Or.inl rfl
    | lastT :: rest =>
      by_cases hc : lastT.isFinal = false ∧ t.speaker = lastT.speaker
      · exact Or.inr ⟨lastT, rest, rfl, hc.1, hc.2, by rw [addOrUpdateTranscript, if_pos hc]⟩
      · exact Or.inl (by rw [addOrUpdateTranscript, if_neg hc])

/-- C2 amended witness: a new entry is started after a final entry, and a
non-final same-speaker entry is replaced in place. -/
theorem C2_amended_nonordinal_witness :
    addOrUpdateTranscript [Transcript.mk "a" true Role.user Medium.voice]
        (Transcript.mk "b" false Role.user Medium.voice)
      = [Transcript.mk "b" false Role.user Medium.voice,
         Transcript.mk "a" true Role.user Medium.voice] ∧
    (Transcript.mk "a" false Role.user Medium.voice).isFinal = false ∧
    (Transcript.mk "b" false Role.user Medium.voice).speaker
      = (Transcript.mk "a" false Role.user Medium.voice).speaker := by
  refine ⟨(C2_amended_nonordinal _ _).1 _ _ rfl rfl, ?_⟩
  exact (C2_amended_nonordinal [Transcript.mk "a" false Role.user Medium.voice]
    (Transcript.mk "b" false Role.user Medium.voice)).2.1 _ _ rfl (by decide)

/-- Helper: the number of status-changed events dispatched by a sequence of
`setStatus` calls equals the spec's count of distinct consecutive values. -/
theorem foldl_setStatus_events (calls : List UltravoxSessionStatus) :
    ∀ s : Session, ((calls.foldl setStatus s).statusEvents).length
      = s.statusEvents.length + specStatusChangeCount s.status calls := by
  induction calls with
  | nil =>
    intro s
    simp [specStatusChangeCount]
  | cons v rest ih =>
    intro s
    by_cases h : s.status = v
    · subst h
      rw [List.foldl_cons, show setStatus s s.status = s by simp [setStatus]]
      rw [ih s]
      simp [specStatusChangeCount]
    · rw [List.foldl_cons,
        show setStatus s v
            = { s with status := v, statusEvents := s.statusEvents ++ [v] } by
          simp [setStatus, h]]
      rw [ih]
      simp only [specStatusChangeCount, if_neg (fun hh : v = s.status => h hh.symm)]
      simp
      omega

/-- C3: calling `setStatus` with the current status changes nothing and emits
no notification; calling it with a different value replaces the status and
appends exactly one status-changed notification; and over any sequence of
calls the number of dispatched notifications equals the spec's count of
distinct consecutive values. -/
theorem C3_setStatus_notifications (s : Session) (v : UltravoxSessionStatus)
    (calls : List UltravoxSessionStatus) :
    setStatus s s.status = s ∧
    (v ≠ s.status →
      (setStatus s v).status = v ∧
      (setStatus s v).statusEvents = s.statusEvents ++ [v]) ∧
    ((calls.foldl setStatus s).statusEvents.length
      = s.statusEvents.length + specStatusChangeCount s.status calls) := by
  refine ⟨by simp [setStatus], fun h => ?_, foldl_setStatus_events calls s⟩
  rw [show setStatus s v
      = { s with status := v, statusEvents := s.statusEvents ++ [v] } by
    simp [setStatus, Ne.symm h]]
  exact ⟨rfl, rfl⟩

/-- C3 witness: from the initial session, the call sequence listening,
listening, thinking fires exactly two notifications, and a single distinct
call fires exactly one. -/
theorem C3_setStatus_notifications_witness :
    setStatus initialSession initialSession.status = initialSession ∧
    (setStatus initialSession UltravoxSessionStatus.listening).statusEvents
      = [UltravoxSessionStatus.listening] ∧
    (([UltravoxSessionStatus.listening, UltravoxSessionStatus.listening,
        UltravoxSessionStatus.thinking].foldl setStatus initialSession).statusEvents.length
      = 2) := by
  obtain ⟨h1, h2, h3⟩ := C3_setStatus_notifications initialSession
    UltravoxSessionStatus.listening
    [UltravoxSessionStatus.listening, UltravoxSessionStatus.listening,
      UltravoxSessionStatus.thinking]
  refine ⟨h1, ?_, ?_⟩
  · simpa [initialSession] using (h2 (by decide)).2
  · rw [h3]
    decide

/-- C4: invoking an unregistered client tool sends exactly one
`client_tool_result` message carrying errorType "undefined", a descriptive
error message naming the tool, and the original invocationId; the dispatcher
returns normally (it is a total function, so no exception reaches the
caller). -/
theorem C4_unregistered_tool (tools : String → Option ToolOutcome)
    (toolName invocationId : String) (h : tools toolName = none) :
    invokeClientTool tools toolName invocationId =
      [{ type := "client_tool_result"
         invocationId := invocationId
         errorType := some "undefined"
         errorMessage := some ("Client tool " ++ toolName ++ " is not registered (TypeScript client)") }] := by
  simp [invokeClientTool, h]

/-- C4 witness: the spec scenario, unregistered tool "foo" with invocationId
"abc". -/
theorem C4_unregistered_tool_witness :
    invokeClientTool (fun _ => none) "foo" "abc" =
      [{ type := "client_tool_result"
         invocationId := "abc"
         errorType := some "undefined"
         errorMessage := some "Client tool foo is not registered (TypeScript client)" }] :=
  (C4_unregistered_tool (fun _ => none) "foo" "abc" rfl).trans (by decide)

/-- Helper: every message built by `handleClientToolResult` carries the
original invocation id and the `client_tool_result` type. -/
theorem handleClientToolResult_fields (invocationId : String)
    (v : ClientToolReturnValue) :
    (handleClientToolResult invocationId v).invocationId = invocationId ∧
    (handleClientToolResult invocationId v).type = "client_tool_result" := by
  cases v with
  | plain s => exact ⟨rfl, rfl⟩
  | structured r =>
    by_cases hc : (!r.result.isString || !r.responseType.isString) = true
    · constructor <;> simp [handleClientToolResult, hc]
    · constructor <;> simp [handleClientToolResult, hc]

/-- C5: a registered tool invocation sends exactly one `client_tool_result`
carrying the original invocationId, and the message shape is determined by
the settlement outcome: a plain-string result (returned or resolved) yields
just the result with no error fields; a structured result with a non-string
`result` or `responseType` yields an implementation-error describing the
contract violation; a valid structured result has its fields forwarded
verbatim; and a synchronous throw or asynchronous rejection yields an
implementation-error whose message is the failure's message when the thrown
value is an Error and is omitted otherwise. Totality of the dispatcher models
that the failure is never propagated. -/
theorem C5_registered_tool (tools : String → Option ToolOutcome)
    (toolName invocationId : String) (outcome : ToolOutcome)
    (h : tools toolName = some outcome) :
    (∃ m : ClientToolResultMessage,
      invokeClientTool tools toolName invocationId = [m] ∧
      m.invocationId = invocationId ∧ m.type = "client_tool_result") ∧
    (∀ str : String,
      (outcome = .syncReturn (.plain str) ∨ outcome = .asyncResolve (.plain str)) →
      invokeClientTool tools toolName invocationId =
        [{ type := "client_tool_result"
           invocationId := invocationId
           result := some (.str str) }]) ∧
    (∀ r : StructuredToolResult,
      (outcome = .syncReturn (.structured r) ∨ outcome = .asyncResolve (.structured r)) →
      ((r.result.isString = false ∨ r.responseType.isString = false) →
        invokeClientTool tools toolName invocationId =
          [{ type := "client_tool_result"
             invocationId := invocationId
             errorType := some "implementation-error"
             errorMessage := some "Client tool result must be a string or an object with string \"result\" and \"responseType\" properties." }]) ∧
      (r.result.isString = true → r.responseType.isString = true →
        invokeClientTool tools toolName invocationId =
          [{ type := "client_tool_result"
             invocationId := invocationId
             result := some r.result
             responseType := some r.responseType
             agentReaction := r.agentReaction
             updateCallState := r.updateCallState }])) ∧
    (∀ e : JsThrown,
      (outcome = .syncThrow e ∨ outcome = .asyncReject e) →
      invokeClientTool tools toolName invocationId =
        [{ type := "client_tool_result"
           invocationId := invocationId
           errorType := some "implementation-error"
           errorMessage := match e with | .errorObj msg => some msg | .nonError _ => none }]) := by
  refine ⟨?_, ?_, ?_, ?_⟩
  · cases outcome with
    | syncReturn v =>
      exact ⟨_, by simp [invokeClientTool, h],
        (handleClientToolResult_fields invocationId v).1,
        (handleClientToolResult_fields invocationId v).2⟩
    | asyncResolve v =>
      exact ⟨_, by simp [invokeClientTool, h],
        (handleClientToolResult_fields invocationId v).1,
        (handleClientToolResult_fields invocationId v).2⟩
    | syncThrow e =>
      exact ⟨handleClientToolFailure invocationId e,
        by simp [invokeClientTool, h], rfl, rfl⟩
    | asyncReject e =>
      exact ⟨handleClientToolFailure invocationId e,
        by simp [invokeClientTool, h], rfl, rfl⟩
  · rintro str (rfl | rfl) <;>
      simp [invokeClientTool, h, handleClientToolResult]
  · rintro r (rfl | rfl) <;>
      refine ⟨fun hbad => ?_, fun hr hrt => ?_⟩ <;>
      first
      | (rcases hbad with hb | hb <;>
          simp [invokeClientTool, h, handleClientToolResult, hb])
      | simp [invokeClientTool, h, handleClientToolResult, hr, hrt]
  · rintro e (rfl | rfl) <;>
      simp [invokeClientTool, h, handleClientToolFailure]

/-- C5 witness: a registered tool "t" returning the plain string "ok" under
invocationId "abc" yields exactly the plain result message. -/
theorem C5_registered_tool_witness :
    invokeClientTool
        (fun n => if n = "t"
          then some (ToolOutcome.syncReturn (ClientToolReturnValue.plain "ok"))
          else none) "t" "abc"
      = [{ type := "client_tool_result"
           invocationId := "abc"
           result := some (.str "ok") }] :=
  (C5_registered_tool _ "t" "abc"
      (ToolOutcome.syncReturn (ClientToolReturnValue.plain "ok")) (by decide)).2.1
    "ok" (Or.inl rfl)

/-- Helper: one `leaveCall` always ends with status `disconnected` and
appends the transition events it fired: just `disconnected` when the session
was already disconnecting, else `disconnecting` followed by
`disconnected`. -/
theorem leaveCall_events (s : Session) :
    (leaveCall s).status = UltravoxSessionStatus.disconnected ∧
    (leaveCall s).statusEvents = s.statusEvents ++
      (if s.status = UltravoxSessionStatus.disconnecting
       then [UltravoxSessionStatus.disconnected]
       else [UltravoxSessionStatus.disconnecting, UltravoxSessionStatus.disconnected]) := by
  by_cases h : s.status = UltravoxSessionStatus.disconnecting <;>
    simp [leaveCall, disconnect, setStatus, h]

/-- C6 counterexample: from a connected session, the first `leaveCall`
settles status at Disconnected once, and a second `leaveCall` settles it at
Disconnected again (re-entering Disconnecting first), so across the two calls
the status settles at Disconnected twice, not exactly once. -/
theorem C6_counterexample_second_call_settles_again :
    settledAtDisconnected
        (leaveCall { initialSession with
          status := UltravoxSessionStatus.listening }).statusEvents = 1 ∧
    settledAtDisconnected
        (leaveCall (leaveCall { initialSession with
          status := UltravoxSessionStatus.listening })).statusEvents = 2 := by
  decide

/-- C6 amended: calling `leaveCall` twice in succession never throws (both
calls are total) and each call settles status at Disconnected exactly once,
so across the two calls the status settles at Disconnected exactly twice,
with the second call performing its own additional settling. -/
theorem C6_amended_leaveCall_twice (s : Session) :
    (leaveCall s).status = UltravoxSessionStatus.disconnected ∧
    settledAtDisconnected (leaveCall s).statusEvents
      = settledAtDisconnected s.statusEvents + 1 ∧
    (leaveCall (leaveCall s)).status = UltravoxSessionStatus.disconnected ∧
    settledAtDisconnected (leaveCall (leaveCall s)).statusEvents
      = settledAtDisconnected s.statusEvents + 2 := by
  obtain ⟨h1, h2⟩ := leaveCall_events s
  obtain ⟨h1', h2'⟩ := leaveCall_events (leaveCall s)
  refine ⟨h1, ?_, h1', ?_⟩
  · rw [h2]
    by_cases h : s.status = UltravoxSessionStatus.disconnecting <;>
      simp [h, settledAtDisconnected, List.countP_append, List.countP_cons]
  · rw [h2', h1, h2]
    by_cases h : s.status = UltravoxSessionStatus.disconnecting <;>
      simp [h, settledAtDisconnected, List.countP_append, List.countP_cons]

/-- C7: when the session status is outside the connected set Listening,
Thinking, Speaking, both `sendText` and `setOutputMedium` fail synchronously
with an invalid-state error, handing nothing to `sendData` and leaving the
session (status and transcripts included) unchanged; when the status is in the
set, no such error is raised and the corresponding message is handed to
`sendData` with the session unchanged. -/
theorem C7_send_gating (s : Session) (text : String) (deferResponse : Option Bool)
    (medium : Medium) :
    (s.status ∉ CONNECTED_STATUSES →
      sendText s text deferResponse =
        .error ("Cannot send text while not connected. Current status is "
          ++ statusString s.status ++ ".") ∧
      setOutputMedium s medium =
        .error ("Cannot set output medium while not connected. Current status is "
          ++ statusString s.status ++ ".")) ∧
    (s.status ∈ CONNECTED_STATUSES →
      sendText s text deferResponse = .ok (s, .inputTextMessage text deferResponse) ∧
      setOutputMedium s medium = .ok (s, .setOutputMediumMsg medium)) := by
  constructor
  · intro h
    constructor <;> simp [sendText, setOutputMedium, h]
  · intro h
    constructor <;> simp [sendText, setOutputMedium, h]

/-- C7 witness: a disconnected session rejects sendText, while a listening
session accepts it without error and leaves the session unchanged. -/
theorem C7_send_gating_witness :
    sendText initialSession "hi" none =
      .error "Cannot send text while not connected. Current status is disconnected." ∧
    sendText { initialSession with status := UltravoxSessionStatus.listening } "hi" none
      = .ok ({ initialSession with status := UltravoxSessionStatus.listening },
          .inputTextMessage "hi" none) :=
  ⟨((C7_send_gating initialSession "hi" none Medium.voice).1 (by decide)).1.trans
      (by rfl),
   ((C7_send_gating { initialSession with status := UltravoxSessionStatus.listening }
      "hi" none Medium.voice).2 (by decide)).1⟩

/-- Helper: UTF-8 byte size distributes over string concatenation. -/
theorem utf8ByteSize_append (a b : String) :
    (a ++ b).utf8ByteSize = a.utf8ByteSize + b.utf8ByteSize := by
  cases a with
  | mk la =>
    cases b with
    | mk lb => exact String.utf8Len_append la lb

/-- Helper: the escape of a run of n letters a occupies exactly n bytes. -/
theorem jsonEscapeList_replicate_a (n : Nat) :
    (jsonEscapeList (List.replicate n 'a')).utf8ByteSize = n := by
  induction n with
  | zero => rfl
  | succ n ih =>
    rw [List.replicate_succ]
    show (jsonEscapeChar 'a' ++ jsonEscapeList (List.replicate n 'a')).utf8ByteSize = n + 1
    rw [utf8ByteSize_append, ih, show (jsonEscapeChar 'a').utf8ByteSize = 1 from rfl]
    omega

/-- Helper: the JSON serialization of `msg1024` is exactly 1024 UTF-8
bytes. -/
theorem msg1024_size : (jsonEncodeObj msg1024).utf8ByteSize = 1024 := by
  show ("\x7b" ++ (jsonEncodeString "type" ++ ":" ++ jsonEncodePrim (.str "x") ++ ","
      ++ (jsonEncodeString "text" ++ ":"
        ++ ("\"" ++ jsonEscapeList (List.replicate 1002 'a') ++ "\""))) ++ "\x7d").utf8ByteSize
    = 1024
  simp only [utf8ByteSize_append, jsonEscapeList_replicate_a]
  rfl

/-- Helper: for any object carrying a type field, `sendData` routes by the
serialized size alone, to the socket when strictly over 1024 bytes and to the
data channel otherwise. -/
theorem sendData_route_eq (o : List (String × JsonPrim))
    (ho : (lookupField o "type").isSome = true) :
    sendData o = (if (jsonEncodeObj o).utf8ByteSize > 1024
      then Except.ok SendChannel.socketChannel
      else Except.ok SendChannel.dataChannel) := by
  have hn : (lookupField o "type").isNone = false := by
    cases hl : lookupField o "type" with
    | none => rw [hl] at ho; simp at ho
    | some v => simp
  simp [sendData, hn]

/-- C8 counterexample: an object whose JSON serialization is exactly 1024
bytes does not serialize to fewer than 1024 bytes, yet `sendData` routes it
to the reliable data channel rather than the signaling channel, because the
code tests strictly greater than 1024. -/
theorem C8_counterexample_boundary :
    (jsonEncodeObj msg1024).utf8ByteSize = 1024 ∧
    sendData msg1024 = .ok .dataChannel := by
  refine ⟨msg1024_size, ?_⟩
  rw [sendData_route_eq msg1024 (by decide), msg1024_size]
  rfl

/-- C8 amended: for every object passed to `sendData` that carries a type
field, a serialization of at most 1024 bytes is sent over the reliable data
channel and a strictly larger one over the signaling channel, and the choice
of channel is determined solely by the serialized size. -/
theorem C8_amended_sendData_routing (obj : List (String × JsonPrim))
    (h : (lookupField obj "type").isSome = true) :
    ((jsonEncodeObj obj).utf8ByteSize ≤ 1024 →
      sendData obj = .ok .dataChannel) ∧
    (1024 < (jsonEncodeObj obj).utf8ByteSize →
      sendData obj = .ok .socketChannel) ∧
    (∀ obj2 : List (String × JsonPrim), (lookupField obj2 "type").isSome = true →
      (jsonEncodeObj obj2).utf8ByteSize = (jsonEncodeObj obj).utf8ByteSize →
      sendData obj2 = sendData obj) := by
  refine ⟨fun hle => ?_, fun hgt => ?_, fun obj2 h2 hsize => ?_⟩
  · rw [sendData_route_eq obj h, if_neg (by omega)]
  · rw [sendData_route_eq obj h, if_pos hgt]
  · rw [sendData_route_eq obj h, sendData_route_eq obj2 h2, hsize]

/-- C8 witness: a small typed message is routed to the reliable data
channel. -/
theorem C8_amended_sendData_routing_witness :
    sendData [("type", JsonPrim.str "ping")] = .ok .dataChannel :=
  (C8_amended_sendData_routing [("type", JsonPrim.str "ping")] (by decide)).1
    (by decide)

/-- C9: evaluating the classifier of `handleDataReceived` at a session whose
enabled experimental-message set is empty and at an unrecognized message
type: the message is dispatched as an experimental message anyway, because
the guard tests the truthiness of the always-present Set object rather than
its emptiness. -/
theorem C9_experimental_forwarding_code_eval :
    classifyDataMessage [] "bogus" = .experimentalEvent ∧
    classifyDataMessage [] "my_msg" = .experimentalEvent ∧
    classifyDataMessage ["known_type"] "bogus" = .experimentalEvent := by
  decide

/-- C10: each of the four mute operations throws, leaving the whole session
state (and in particular the corresponding mute flag) unchanged, when the
required participant reference on the transport room is absent; when the
guard passes, the operation succeeds and afterwards the corresponding flag
equals the requested mute state, the other flag being untouched. -/
theorem C10_mute_guard (s : Session) :
    (jsTruthyOpt (s.room.map fun r => r.localParticipant) = false →
      muteMic s = (some "Cannot muteMic.", s) ∧
      unmuteMic s = (some "Cannot unmuteMic.", s)) ∧
    (jsTruthyOpt (s.room.map fun r => r.localParticipant) = true →
      muteMic s = (none, { s with isMicMuted := true }) ∧
      unmuteMic s = (none, { s with isMicMuted := false })) ∧
    (jsTruthyOpt (s.room.map fun r => r.remoteParticipants) = false →
      muteSpeaker s = (some "Cannot muteSpeaker.", s) ∧
      unmuteSpeaker s = (some "Cannot unmuteSpeaker.", s)) ∧
    (jsTruthyOpt (s.room.map fun r => r.remoteParticipants) = true →
      muteSpeaker s = (none, { s with isSpeakerMuted := true }) ∧
      unmuteSpeaker s = (none, { s with isSpeakerMuted := false })) := by
  refine ⟨fun h => ?_, fun h => ?_, fun h => ?_, fun h => ?_⟩ <;>
    constructor <;>
    simp [muteMic, unmuteMic, muteSpeaker, unmuteSpeaker, h]

/-- C10 witness: with no room, muteMic throws and the session is unchanged;
with a room whose participants are present, muteSpeaker sets only the
speaker-muted flag. -/
theorem C10_mute_guard_witness :
    muteMic initialSession = (some "Cannot muteMic.", initialSession) ∧
    muteSpeaker { initialSession with
        room := some { localParticipant := true, remoteParticipants := true } }
      = (none, { initialSession with
          room := some { localParticipant := true, remoteParticipants := true }
          isSpeakerMuted := true }) :=
  ⟨((C10_mute_guard initialSession).1 (by decide)).1,
   ((C10_mute_guard { initialSession with
      room := some { localParticipant := true, remoteParticipants := true } }).2.2.2
      (by decide)).1⟩

end Ultravox
